import Mathlib

/-!
# Verification of the mimalloc statistics engine (`src/stats.c`)

Shallow embedding of the statistics aggregation and reporting code of
`src/stats.c` (OpenHarmony mirror of mimalloc).  The embedding is sequential:
the C code's relaxed-atomic read-modify-write operations are modelled by their
sequential effect (`mi_atomic_addi64_relaxed` on `p` with argument `a` returns
the previous value of `*p` and stores `*p + a`; `mi_atomic_maxi64_relaxed`
stores the maximum).  Machine integers (`int64_t`, `size_t`) are modelled by
`Int`/`Nat`; the `size_t → int64_t` conversion is made explicit by
`int64OfNat`.  Signed `int64_t` overflow is undefined behaviour in C, so the
arithmetic itself is modelled exactly by `Int`.
-/

/-- `mi_stat_count_t`: a size counter `{allocated, freed, peak, current}`
(all `int64_t`).  The struct declaration lives in the (absent)
`mimalloc-internal.h` header; the field set is the one used throughout
`src/stats.c`. -/
structure MiStatCount where
  allocated : Int
  freed : Int
  peak : Int
  current : Int
deriving DecidableEq, Repr

/-- `mi_stat_counter_t`: a flow counter `{total, count}` (both `int64_t`). -/
structure MiStatCounter where
  total : Int
  count : Int
deriving DecidableEq, Repr

/-- The all-zero size counter (static zero initialization / `memset 0`). -/
def zeroStatCount : MiStatCount := { allocated := 0, freed := 0, peak := 0, current := 0 }

/-- The all-zero flow counter. -/
def zeroStatCounter : MiStatCounter := { total := 0, count := 0 }

/-- The C conversion `(int64_t)amount` of a `size_t` value: reduce modulo
`2^64`, then reinterpret values `≥ 2^63` as negative (two's complement). -/
def int64OfNat (n : Nat) : Int :=
  if n % 2 ^ 64 < 2 ^ 63 then ((n % 2 ^ 64 : Nat) : Int)
  else ((n % 2 ^ 64 : Nat) : Int) - 2 ^ 64

/-- `mi_stat_update` (stats.c:32-57).  `isMain` is the result of the
`mi_is_in_main(stat)` address-range ownership test: `true` selects the atomic
path used for the shared `_mi_stats_main` block, `false` the plain
thread-local path.  In the atomic path, `mi_atomic_addi64_relaxed` returns the
previous value of `current`, and `mi_atomic_maxi64_relaxed` stores
`max peak (current + amount)`. -/
def mi_stat_update (isMain : Bool) (stat : MiStatCount) (amount : Int) : MiStatCount :=
  if amount = 0 then stat
  else if isMain then
    let current := stat.current
    let stat1 := { stat with current := stat.current + amount }
    let stat2 := { stat1 with peak := max stat1.peak (current + amount) }
    if amount > 0 then { stat2 with allocated := stat2.allocated + amount }
    else { stat2 with freed := stat2.freed + (-amount) }
  else
    let stat1 := { stat with current := stat.current + amount }
    let stat2 := if stat1.current > stat1.peak then { stat1 with peak := stat1.current } else stat1
    if amount > 0 then { stat2 with allocated := stat2.allocated + amount }
    else { stat2 with freed := stat2.freed + (-amount) }

/-- `_mi_stat_increase` (stats.c:70-72): `mi_stat_update(stat, (int64_t)amount)`. -/
def _mi_stat_increase (isMain : Bool) (stat : MiStatCount) (amount : Nat) : MiStatCount :=
  mi_stat_update isMain stat (int64OfNat amount)

/-- `_mi_stat_decrease` (stats.c:74-76): `mi_stat_update(stat, -((int64_t)amount))`. -/
def _mi_stat_decrease (isMain : Bool) (stat : MiStatCount) (amount : Nat) : MiStatCount :=
  mi_stat_update isMain stat (-(int64OfNat amount))

/-- `_mi_stat_counter_increase` (stats.c:59-68); both ownership branches have
the same sequential effect `count += 1; total += (int64_t)amount`. -/
def _mi_stat_counter_increase (isMain : Bool) (stat : MiStatCounter) (amount : Nat) : MiStatCounter :=
  if isMain then
    { stat with count := stat.count + 1, total := stat.total + int64OfNat amount }
  else
    { stat with count := stat.count + 1, total := stat.total + int64OfNat amount }

/-- `mi_stat_add` (stats.c:79-87).  `same` models the C pointer-identity test
`stat == src` (in the value semantics of this embedding, two distinct
arguments are never the same object, so the flag is passed explicitly). -/
def mi_stat_add (same : Bool) (stat src : MiStatCount) (unit : Int) : MiStatCount :=
  if same then stat
  else if src.allocated = 0 ∧ src.freed = 0 then stat
  else
    { allocated := stat.allocated + src.allocated * unit
      current := stat.current + src.current * unit
      freed := stat.freed + src.freed * unit
      peak := stat.peak + src.peak * unit }

/-- `mi_stat_counter_add` (stats.c:89-93), with the `stat == src` pointer test
passed as `same`. -/
def mi_stat_counter_add (same : Bool) (stat src : MiStatCounter) (unit : Int) : MiStatCounter :=
  if same then stat
  else
    { total := stat.total + src.total * unit
      count := stat.count + src.count * unit }

/-- One event on the thread-exclusive update path: an `_mi_stat_increase` or
`_mi_stat_decrease` call with a `size_t` amount. -/
inductive StatOp where
  | inc : Nat → StatOp
  | dec : Nat → StatOp
deriving DecidableEq, Repr

/-- The `size_t` amount carried by an update event. -/
def StatOp.amount : StatOp → Nat
  | .inc n => n
  | .dec n => n

/-- Apply one update event to a counter through the source entry points. -/
def applyStatOp (isMain : Bool) (stat : MiStatCount) : StatOp → MiStatCount
  | .inc n => _mi_stat_increase isMain stat n
  | .dec n => _mi_stat_decrease isMain stat n

/-- Apply a finite sequence of update events, in order. -/
def applyStatOps (isMain : Bool) (stat : MiStatCount) (ops : List StatOp) : MiStatCount :=
  ops.foldl (applyStatOp isMain) stat

/-- The counter invariant of the spec: `current = allocated - freed` and
`peak ≥ current`. -/
def statInv (s : MiStatCount) : Prop :=
  s.current = s.allocated - s.freed ∧ s.current ≤ s.peak

instance (s : MiStatCount) : Decidable (statInv s) := by
  unfold statInv; infer_instance

/-- `mi_stats_t`: the aggregate block of named counters, with the field set
used by `src/stats.c` (the struct declaration lives in the absent
`mimalloc-internal.h` header).  The size-class bin array `normal_bins`
(compiled only under `MI_STAT > 1`) is not modelled; no claim depends on it. -/
structure MiStats where
  segments : MiStatCount
  pages : MiStatCount
  reserved : MiStatCount
  committed : MiStatCount
  reset : MiStatCount
  page_committed : MiStatCount
  segments_abandoned : MiStatCount
  pages_abandoned : MiStatCount
  threads : MiStatCount
  normal : MiStatCount
  huge : MiStatCount
  large : MiStatCount
  malloc : MiStatCount
  segments_cache : MiStatCount
  pages_extended : MiStatCounter
  mmap_calls : MiStatCounter
  commit_calls : MiStatCounter
  page_no_retire : MiStatCounter
  searches : MiStatCounter
  normal_count : MiStatCounter
  huge_count : MiStatCounter
  large_count : MiStatCounter
deriving DecidableEq, Repr

/-- The all-zero aggregate block (`memset(stats, 0, sizeof(mi_stats_t))`). -/
def zeroStats : MiStats :=
  { segments := zeroStatCount, pages := zeroStatCount, reserved := zeroStatCount
    committed := zeroStatCount, reset := zeroStatCount, page_committed := zeroStatCount
    segments_abandoned := zeroStatCount, pages_abandoned := zeroStatCount
    threads := zeroStatCount, normal := zeroStatCount, huge := zeroStatCount
    large := zeroStatCount, malloc := zeroStatCount, segments_cache := zeroStatCount
    pages_extended := zeroStatCounter, mmap_calls := zeroStatCounter
    commit_calls := zeroStatCounter, page_no_retire := zeroStatCounter
    searches := zeroStatCounter, normal_count := zeroStatCounter
    huge_count := zeroStatCounter, large_count := zeroStatCounter }

/-- The process-wide state touched by `mi_stats_reset` (stats.c:426-431):
the shared `_mi_stats_main` block, the calling thread's default heap stats
(`some` when that block is distinct from `_mi_stats_main`, `none` when the
default heap IS the main heap and the two alias), and the static
`mi_process_start` clock latch (stats.c:412). -/
structure StatsResetState where
  stats_main : MiStats
  heap_stats : Option MiStats
  process_start : Int
deriving DecidableEq, Repr

/-- `_mi_clock_start` (stats.c:741-747): after a one-time calibration of the
static `mi_clock_diff`, it returns `_mi_clock_now()`; the current clock
reading is passed in as `clock_now`. -/
def _mi_clock_start (clock_now : Int) : Int := clock_now

/-- `mi_stats_reset` (stats.c:426-431): zero the calling thread's default
stats block when it is distinct from `_mi_stats_main`, zero `_mi_stats_main`,
and latch `mi_process_start` from the clock only when it is still `0`. -/
def mi_stats_reset (s : StatsResetState) (clock_now : Int) : StatsResetState :=
  { stats_main := zeroStats
    heap_stats := s.heap_stats.map (fun _ => zeroStats)
    process_start := if s.process_start = 0 then _mi_clock_start clock_now else s.process_start }

/-- `print_mode_t` (stats.c:137-140). -/
inductive PrintMode where
  | TABLE
  | XML
deriving DecidableEq, Repr

/-- `trim_right_in_place` (stats.c:146-152): drop trailing space characters. -/
def trimRight (s : String) : String :=
  String.mk ((s.data.reverse.dropWhile (fun c => c = ' ')).reverse)

/-- `printf`-style left justification `%-<w>s`: pad on the right to width `w`
(strings already at least `w` long are unchanged). -/
def leftAlign (w : Nat) (s : String) : String :=
  s ++ String.mk (List.replicate (w - s.data.length) ' ')

/-- `printf`-style right justification `%<w>s`: pad on the left to width `w`. -/
def rightAlign (w : Nat) (s : String) : String :=
  String.mk (List.replicate (w - s.data.length) ' ') ++ s

/-- Substitute the first `%s` directive of a format string (all format
strings passed to the final `_mi_fprintf` of `mi_printf_amount` contain
exactly one directive, a `%s`). -/
def substFirstPercentS (l : List Char) (arg : String) : List Char :=
  match l with
  | [] => []
  | c :: rest =>
    match rest with
    | [] => [c]
    | d :: rest2 =>
      if c = '%' ∧ d = 's' then arg.data ++ rest2
      else c :: substFirstPercentS rest arg

/-- The final output step of `mi_printf_amount` (stats.c:185):
`_mi_fprintf(out, arg, (fmt==NULL ? "%11s" : fmt), buf)`. -/
def applyFmt (fmt : Option String) (buf : String) : String :=
  match fmt with
  | none => rightAlign 11 buf
  | some f => String.mk (substFirstPercentS f.data buf)

/-- The `buf` computed by `mi_printf_amount` (stats.c:157-181) before the
final `_mi_fprintf`.  `snprintf` truncation at the 32-byte buffer never
occurs (the formatted text is always far shorter).  `(int)n` in the
small-value branch is exact since `|n| < base ≤ 1024` there. -/
def mi_printf_amount_buf (n unit : Int) : String :=
  let suffix := if unit ≤ 0 then " " else "B"
  let base : Int := if unit = 0 then 1000 else 1024
  let n := if unit > 0 then n * unit else n
  let pos := if n < 0 then -n else n
  if pos < base then
    if n ≠ 1 ∨ suffix ≠ "B" then
      toString n ++ " " ++ leftAlign 3 (if n = 0 then "" else suffix)
    else ""
  else
    let divider := base
    let magnitude := "K"
    let dm := if pos ≥ divider * base then (divider * base, "M") else (divider, magnitude)
    let dm := if pos ≥ dm.1 * base then (dm.1 * base, "G") else dm
    let tens := Int.tdiv n (Int.tdiv dm.1 10)
    let whole := Int.tdiv tens 10
    let frac1 := Int.tmod tens 10
    let unitdesc := dm.2 ++ (if base = 1024 then "i" else "") ++ suffix
    toString whole ++ "." ++ toString (if frac1 < 0 then -frac1 else frac1) ++ " " ++
      leftAlign 3 unitdesc

/-- `mi_printf_amount` (stats.c:157-186), returning the string handed to the
output callback. -/
def mi_printf_amount (n unit : Int) (fmt : Option String) (print_mode : PrintMode) : String :=
  let buf := mi_printf_amount_buf n unit
  let buf := if print_mode = PrintMode.XML then trimRight buf else buf
  applyFmt fmt buf

/-- Spec-side variant of `mi_printf_amount_buf` for the refinement claim on
the fractional digit: identical to the source translation except that the
tenths value is computed by the spec's formula `value*10 / divider`
("Formatting always rounds to one fractional decimal digit computed via
integer scaling (`value*10/divisor`)") instead of the code's
`n / (divider/10)`. -/
def mi_printf_amount_spec_buf (n unit : Int) : String :=
  let suffix := if unit ≤ 0 then " " else "B"
  let base : Int := if unit = 0 then 1000 else 1024
  let n := if unit > 0 then n * unit else n
  let pos := if n < 0 then -n else n
  if pos < base then
    if n ≠ 1 ∨ suffix ≠ "B" then
      toString n ++ " " ++ leftAlign 3 (if n = 0 then "" else suffix)
    else ""
  else
    let divider := base
    let magnitude := "K"
    let dm := if pos ≥ divider * base then (divider * base, "M") else (divider, magnitude)
    let dm := if pos ≥ dm.1 * base then (dm.1 * base, "G") else dm
    let tens := Int.tdiv (n * 10) dm.1
    let whole := Int.tdiv tens 10
    let frac1 := Int.tmod tens 10
    let unitdesc := dm.2 ++ (if base = 1024 then "i" else "") ++ suffix
    toString whole ++ "." ++ toString (if frac1 < 0 then -frac1 else frac1) ++ " " ++
      leftAlign 3 unitdesc

/-- Spec-side variant of `mi_printf_amount` built on
`mi_printf_amount_spec_buf`. -/
def mi_printf_amount_spec (n unit : Int) (fmt : Option String) (print_mode : PrintMode) : String :=
  let buf := mi_printf_amount_spec_buf n unit
  let buf := if print_mode = PrintMode.XML then trimRight buf else buf
  applyFmt fmt buf

/-- `mi_print_amount` (stats.c:189-191). -/
def mi_print_amount (n unit : Int) : String :=
  mi_printf_amount n unit none PrintMode.TABLE

/-- `mi_print_count` (stats.c:193-196). -/
def mi_print_count (n unit : Int) : String :=
  if unit = 1 then rightAlign 11 " " else mi_print_amount n 0

/-- `mi_stat_print` (stats.c:198-236), returning the concatenation of the
strings handed to the output callback for one table row. -/
def mi_stat_print (stat : MiStatCount) (msg : String) (unit : Int) : String :=
  rightAlign 10 msg ++ ":" ++
  (if unit > 0 then
    mi_print_amount stat.peak unit ++ mi_print_amount stat.allocated unit ++
    mi_print_amount stat.freed unit ++ mi_print_amount stat.current unit ++
    mi_print_amount unit 1 ++ mi_print_count stat.allocated unit ++
    (if stat.allocated > stat.freed then "  not all freed!\n" else "  ok\n")
  else if unit < 0 then
    mi_print_amount stat.peak (-1) ++ mi_print_amount stat.allocated (-1) ++
    mi_print_amount stat.freed (-1) ++ mi_print_amount stat.current (-1) ++
    (if unit = -1 then rightAlign 22 ""
     else mi_print_amount (-unit) 1 ++ mi_print_count (Int.tdiv stat.allocated (-unit)) 0) ++
    (if stat.allocated > stat.freed then "  not all freed!\n" else "  ok\n")
  else
    mi_print_amount stat.peak 1 ++ mi_print_amount stat.allocated 1 ++
    rightAlign 11 " " ++ mi_print_amount stat.current 1 ++ "\n")

/-- The `reserved` table row of `_mi_stats_print` (stats.c:375):
`mi_stat_print(&stats->reserved, "reserved", 1, out, arg)`. -/
def mi_stats_print_reserved_line (stats : MiStats) : String :=
  mi_stat_print stats.reserved "reserved" 1

/-- `mi_print_amount_xml` (stats.c:493-497): format with the
`"<name>%s</name>\n"` template in XML mode. -/
def mi_print_amount_xml (name : String) (n unit : Int) : String :=
  mi_printf_amount n unit (some ("<" ++ name ++ ">%s</" ++ name ++ ">\n")) PrintMode.XML

/-- `mi_print_count_xml` (stats.c:499-504). -/
def mi_print_count_xml (n unit : Int) : String :=
  if unit = 1 then "" else mi_print_amount_xml "count" n 0

/-- `mi_stat_print_allocation_result_xml` (stats.c:506-513). -/
def mi_stat_print_allocation_result_xml (stat : MiStatCount) : String :=
  if stat.allocated > stat.freed then "<result>not all freed!</result>\n"
  else "<result>ok</result>\n"

/-- `mi_stat_print_size_stats_xml` (stats.c:516-525). -/
def mi_stat_print_size_stats_xml (stat : MiStatCount) (unit : Int) : String :=
  mi_print_amount_xml "peak" stat.peak unit ++
  mi_print_amount_xml "total" stat.allocated unit ++
  mi_print_amount_xml "freed" stat.freed unit ++
  mi_print_amount_xml "current" stat.current unit ++
  (if unit ≠ 1 then mi_print_amount_xml "unit" unit 1 else "") ++
  mi_print_count_xml stat.allocated unit

/-- `mi_stat_print_binary_count_stats_xml` (stats.c:528-538). -/
def mi_stat_print_binary_count_stats_xml (stat : MiStatCount) (unit : Int) : String :=
  mi_print_amount_xml "peak" stat.peak (-1) ++
  mi_print_amount_xml "total" stat.allocated (-1) ++
  mi_print_amount_xml "freed" stat.freed (-1) ++
  mi_print_amount_xml "current" stat.current (-1) ++
  (if unit ≠ -1 then
    mi_print_amount_xml "unit" (-unit) 1 ++
    mi_print_count_xml (Int.tdiv stat.allocated (-unit)) 0
  else "")

/-- `mi_stat_print_size_stats_no_freed_xml` (stats.c:541-545). -/
def mi_stat_print_size_stats_no_freed_xml (stat : MiStatCount) : String :=
  mi_print_amount_xml "peak" stat.peak (-1) ++
  mi_print_amount_xml "total" stat.allocated (-1) ++
  mi_print_amount_xml "current" stat.current (-1)

/-- `mi_stat_print_body_xml` (stats.c:547-558). -/
def mi_stat_print_body_xml (stat : MiStatCount) (unit : Int) : String :=
  if unit = 0 then mi_stat_print_size_stats_no_freed_xml stat
  else
    (if unit > 0 then mi_stat_print_size_stats_xml stat unit
     else mi_stat_print_binary_count_stats_xml stat unit) ++
    mi_stat_print_allocation_result_xml stat

/-- Suffix test on strings by their character lists (used to state that a
rendered row ends with a given status fragment). -/
def strEndsWith (s t : String) : Bool :=
  t.data.isSuffixOf s.data

/-- `buffered_t` (stats.c:295-301): the local line buffer.  `buffered` holds
the characters `buf[0..used)`; `count` is the capacity.  The underlying sink
(`out`/`arg`) is modelled separately as the list of strings it has observed. -/
structure BufferedT where
  buffered : List Char
  count : Nat
deriving DecidableEq, Repr

/-- `mi_buffered_flush` (stats.c:303-307): NUL-terminate the buffer, hand the
buffered characters to the sink verbatim (`_mi_fputs`), and clear the buffer
(`buf->used = 0`).  Returns the cleared buffer and the flushed string. -/
def mi_buffered_flush (b : BufferedT) : BufferedT × List Char :=
  ({ b with buffered := [] }, b.buffered)

/-- One iteration of the loop body of `mi_buffered_out` (stats.c:312-318) on
character `c`: flush first when the buffer is full (`used >= count`), append
`c`, then flush when `c` is a newline.  The second component of the state is
the sequence of strings the sink has observed so far. -/
def mi_buffered_out_char (st : BufferedT × List (List Char)) (c : Char) :
    BufferedT × List (List Char) :=
  let st :=
    if st.1.buffered.length ≥ st.1.count then
      let fl := mi_buffered_flush st.1
      (fl.1, st.2 ++ [fl.2])
    else st
  let st := ({ st.1 with buffered := st.1.buffered ++ [c] }, st.2)
  if c = '\n' then
    let fl := mi_buffered_flush st.1
    (fl.1, st.2 ++ [fl.2])
  else st

/-- `mi_buffered_out` (stats.c:309-319): append every character of a fragment
(the C loop runs to the NUL terminator; fragments contain no NUL). -/
def mi_buffered_out (msg : List Char) (st : BufferedT × List (List Char)) :
    BufferedT × List (List Char) :=
  msg.foldl mi_buffered_out_char st

/-- Run a sequence of fragments through the adapter starting from a fresh
empty buffer of capacity `count`, as `_mi_stats_print` (stats.c:358) and
`mi_stats_print_xml` (stats.c:637) do. -/
def mi_buffered_run (count : Nat) (frags : List (List Char)) :
    BufferedT × List (List Char) :=
  frags.foldl (fun st m => mi_buffered_out m st) ({ buffered := [], count := count }, [])

/-- Adapter invariant: the buffer capacity is fixed, the buffer never holds
more than `count` characters, and every string the sink has observed either
has length exactly `count` (capacity-overflow flush) or is nonempty and ends
in a newline. -/
def BufWf (count : Nat) (st : BufferedT × List (List Char)) : Prop :=
  st.1.count = count ∧ st.1.buffered.length ≤ count ∧
    ∀ f ∈ st.2, f.length = count ∨ (f ≠ [] ∧ f.getLast? = some '\n')

/-- The outputs of the platform sampler `mi_stat_process_info`
(stats.c:808-843; OS-specific, sampled at call time). -/
structure ProcessSample where
  elapsed : Int
  utime : Int
  stime : Int
  current_rss : Nat
  peak_rss : Nat
  current_commit : Nat
  peak_commit : Nat
  page_faults : Nat
deriving DecidableEq, Repr

/-- The stores performed by `mi_process_info` through its output pointers;
`none` models a `NULL` pointer that is skipped without being written. -/
structure ProcessInfoOut where
  elapsed_msecs : Option Nat
  user_msecs : Option Nat
  system_msecs : Option Nat
  current_rss : Option Nat
  peak_rss : Option Nat
  current_commit : Option Nat
  peak_commit : Option Nat
  page_faults : Option Nat
deriving DecidableEq, Repr

/-- `PTRDIFF_MAX` on the 64-bit targets this code runs on. -/
def ptrdiffMax : Int := 2 ^ 63 - 1

/-- `mi_process_info` (stats.c:865-884).  Each Boolean argument is the
non-nullness of the corresponding output pointer; the sampled values come
from `mi_stat_process_info`.  The three time outputs are clamped by
`(t < 0 ? 0 : (t < (mi_msecs_t)PTRDIFF_MAX ? (size_t)t : PTRDIFF_MAX))`. -/
def mi_process_info (s : ProcessSample)
    (elapsed_msecs user_msecs system_msecs current_rss peak_rss current_commit peak_commit
      page_faults : Bool) : ProcessInfoOut :=
  { elapsed_msecs :=
      if elapsed_msecs then
        some (if s.elapsed < 0 then 0
              else if s.elapsed < ptrdiffMax then s.elapsed.toNat else ptrdiffMax.toNat)
      else none
    user_msecs :=
      if user_msecs then
        some (if s.utime < 0 then 0
              else if s.utime < ptrdiffMax then s.utime.toNat else ptrdiffMax.toNat)
      else none
    system_msecs :=
      if system_msecs then
        some (if s.stime < 0 then 0
              else if s.stime < ptrdiffMax then s.stime.toNat else ptrdiffMax.toNat)
      else none
    current_rss := if current_rss then some s.current_rss else none
    peak_rss := if peak_rss then some s.peak_rss else none
    current_commit := if current_commit then some s.current_commit else none
    peak_commit := if peak_commit then some s.peak_commit else none
    page_faults := if page_faults then some s.page_faults else none }

theorem int64OfNat_of_lt (n : Nat) (h : n < 2 ^ 63) : int64OfNat n = (n : Int) := by
  unfold int64OfNat
  rw [Nat.mod_eq_of_lt (by omega), if_pos (by omega)]

theorem int64OfNat_nonneg_of_lt (n : Nat) (h : n < 2 ^ 63) : 0 ≤ int64OfNat n := by
  rw [int64OfNat_of_lt n h]; positivity

/-- One thread-local update with a representable amount preserves the
counter invariant. -/
theorem statInv_applyStatOp (s : MiStatCount) (op : StatOp)
    (hrep : op.amount < 2 ^ 63) (hs : statInv s) :
    statInv (applyStatOp false s op) := by
  obtain ⟨h1, h2⟩ := hs
  cases op with
  | inc n =>
    simp only [StatOp.amount] at hrep
    have ha := int64OfNat_of_lt n hrep
    simp only [applyStatOp, _mi_stat_increase, mi_stat_update, ha]
    split_ifs with h0 hpos hpk hpk <;>
      simp_all [statInv] <;> omega
  | dec n =>
    simp only [StatOp.amount] at hrep
    have ha := int64OfNat_of_lt n hrep
    simp only [applyStatOp, _mi_stat_decrease, mi_stat_update, ha]
    split_ifs with h0 hpos hpk hpk <;>
      simp_all [statInv] <;> omega

theorem statInv_applyStatOps (ops : List StatOp) (s : MiStatCount)
    (hrep : ∀ op ∈ ops, op.amount < 2 ^ 63) (hs : statInv s) :
    statInv (applyStatOps false s ops) := by
  induction ops generalizing s with
  | nil => simpa [applyStatOps] using hs
  | cons op ops ih =>
    simp only [applyStatOps, List.foldl_cons]
    exact ih _ (fun o ho => hrep o (List.mem_cons_of_mem _ ho))
      (statInv_applyStatOp s op (hrep op (List.mem_cons_self _ _)) hs)

/-- C1: on the thread-exclusive (non-shared) update path, starting from the
all-zero size counter, after every finite sequence of
`_mi_stat_increase`/`_mi_stat_decrease` calls whose `size_t` amounts are
representable in `int64_t` (hence coerce to nonnegative values), the counter
satisfies `current = allocated - freed` and `peak ≥ current`.  Since the
sequence is universally quantified, this holds after every individual update
(every prefix is itself such a sequence). -/
theorem update_path_invariant (ops : List StatOp)
    (hrep : ∀ op ∈ ops, op.amount < 2 ^ 63) :
    (applyStatOps false zeroStatCount ops).current =
      (applyStatOps false zeroStatCount ops).allocated -
        (applyStatOps false zeroStatCount ops).freed ∧
    (applyStatOps false zeroStatCount ops).current ≤
      (applyStatOps false zeroStatCount ops).peak :=
  statInv_applyStatOps ops zeroStatCount hrep (by constructor <;> simp [zeroStatCount])

/-- Witness for C1 at the concrete event sequence
`[inc 5, dec 3, inc 7, dec 9, dec 0]`. -/
theorem update_path_invariant_witness :
    ((applyStatOps false zeroStatCount
        [StatOp.inc 5, StatOp.dec 3, StatOp.inc 7, StatOp.dec 9, StatOp.dec 0]).current =
      (applyStatOps false zeroStatCount
        [StatOp.inc 5, StatOp.dec 3, StatOp.inc 7, StatOp.dec 9, StatOp.dec 0]).allocated -
        (applyStatOps false zeroStatCount
          [StatOp.inc 5, StatOp.dec 3, StatOp.inc 7, StatOp.dec 9, StatOp.dec 0]).freed ∧
      (applyStatOps false zeroStatCount
        [StatOp.inc 5, StatOp.dec 3, StatOp.inc 7, StatOp.dec 9, StatOp.dec 0]).current ≤
        (applyStatOps false zeroStatCount
          [StatOp.inc 5, StatOp.dec 3, StatOp.inc 7, StatOp.dec 9, StatOp.dec 0]).peak) :=
  update_path_invariant _ (by decide)

/-- C2 counterexample: `mi_stat_add` is NOT a plain four-field add for every
source counter.  When `src.allocated = 0` and `src.freed = 0` the function
returns early (stats.c:81) even if `src.current` is nonzero, so
`dst.current += src.current * unit` does not happen. -/
theorem merge_not_always_adds :
    ¬ ((mi_stat_add false zeroStatCount
          { allocated := 0, freed := 0, peak := 1, current := 1 } 1).current =
        zeroStatCount.current +
          ({ allocated := 0, freed := 0, peak := 1, current := 1 } : MiStatCount).current * 1) := by
  decide

/-- C2 amended: `mi_stat_add` adds `src.allocated * unit` to `dst.allocated`
(and likewise for `current`, `freed`, `peak`) whenever `dst` and `src` are
distinct counters and `src.allocated`, `src.freed` are not both zero;
otherwise it leaves `dst` unchanged.  `mi_stat_counter_add` adds
`src.total * unit` and `src.count * unit` whenever the counters are distinct,
and leaves `dst` unchanged on a self-merge. -/
theorem merge_adds_fields (dst src : MiStatCount) (d s : MiStatCounter) (unit : Int) :
    (¬ (src.allocated = 0 ∧ src.freed = 0) →
      mi_stat_add false dst src unit =
        { allocated := dst.allocated + src.allocated * unit
          current := dst.current + src.current * unit
          freed := dst.freed + src.freed * unit
          peak := dst.peak + src.peak * unit }) ∧
    ((src.allocated = 0 ∧ src.freed = 0) → mi_stat_add false dst src unit = dst) ∧
    (mi_stat_counter_add false d s unit =
      { total := d.total + s.total * unit, count := d.count + s.count * unit }) ∧
    mi_stat_add true dst src unit = dst ∧
    mi_stat_counter_add true d s unit = d := by
  refine ⟨fun h => ?_, fun h => ?_, ?_, ?_, ?_⟩ <;>
    simp [mi_stat_add, mi_stat_counter_add, *]

/-- Witness for C2 at concrete counters. -/
theorem merge_adds_fields_witness :
    mi_stat_add false zeroStatCount
        { allocated := 4, freed := 1, peak := 4, current := 3 } 2 =
      { allocated := 8, current := 6, freed := 2, peak := 8 } :=
  (merge_adds_fields zeroStatCount
      { allocated := 4, freed := 1, peak := 4, current := 3 }
      zeroStatCounter zeroStatCounter 2).1 (by decide)

/-- C4 counterexample: an `_mi_stat_increase` whose `size_t` amount coerces to
a negative `int64_t` (here `2^64 - 5`, which coerces to `-5`) is NOT a no-op:
it changes the counter fields. -/
theorem negative_increase_not_noop :
    _mi_stat_increase false zeroStatCount (2 ^ 64 - 5) =
        { allocated := 0, freed := 5, peak := 0, current := -5 } ∧
      _mi_stat_increase false zeroStatCount (2 ^ 64 - 5) ≠ zeroStatCount := by
  decide

/-- C4 amended: an increase amount that coerces to a negative `int64_t` is not
a fault and not a no-op: it is applied as a decrease — `current` moves by the
(negative) coerced amount, `freed` grows by its magnitude, and `allocated` is
unchanged — on both ownership paths. -/
theorem negative_coerced_increase (isMain : Bool) (stat : MiStatCount) (n : Nat)
    (h : int64OfNat n < 0) :
    (_mi_stat_increase isMain stat n).allocated = stat.allocated ∧
    (_mi_stat_increase isMain stat n).freed = stat.freed - int64OfNat n ∧
    (_mi_stat_increase isMain stat n).current = stat.current + int64OfNat n := by
  simp only [_mi_stat_increase, mi_stat_update]
  split_ifs <;> simp_all <;> omega

/-- Witness for C4 (amended) at `amount = 2^64 - 5` on the thread-local path. -/
theorem negative_coerced_increase_witness :
    (_mi_stat_increase false zeroStatCount (2 ^ 64 - 5)).allocated =
        zeroStatCount.allocated ∧
      (_mi_stat_increase false zeroStatCount (2 ^ 64 - 5)).freed =
        zeroStatCount.freed - int64OfNat (2 ^ 64 - 5) ∧
      (_mi_stat_increase false zeroStatCount (2 ^ 64 - 5)).current =
        zeroStatCount.current + int64OfNat (2 ^ 64 - 5) :=
  negative_coerced_increase false zeroStatCount (2 ^ 64 - 5) (by decide)

/-- C8: a zero-amount `_mi_stat_increase` or `_mi_stat_decrease` leaves every
field of the counter unchanged (in particular `peak`), on both ownership
paths. -/
theorem zero_amount_update_noop (isMain : Bool) (stat : MiStatCount) :
    _mi_stat_increase isMain stat 0 = stat ∧ _mi_stat_decrease isMain stat 0 = stat := by
  have h0 : int64OfNat 0 = 0 := by decide
  constructor <;>
    simp [_mi_stat_increase, _mi_stat_decrease, mi_stat_update, h0]

/-- C3 counterexample: `mi_stats_reset` does NOT re-latch the elapsed-time
origin on every call.  A first reset from `process_start = 0` at clock `5`
latches `5`; a second reset at clock `100` keeps `5` because of the
`if (mi_process_start == 0)` guard (stats.c:430). -/
theorem reset_does_not_always_relatch :
    (mi_stats_reset
        (mi_stats_reset { stats_main := zeroStats, heap_stats := none, process_start := 0 } 5)
        100).process_start = 5 ∧
      (mi_stats_reset
          (mi_stats_reset { stats_main := zeroStats, heap_stats := none, process_start := 0 } 5)
          100).process_start ≠ 100 := by
  decide

/-- C3 amended: every call to `mi_stats_reset` zeroes `_mi_stats_main` and the
calling thread's own stats block (when distinct), but latches the
elapsed-time origin from the clock only when `mi_process_start` is still `0`
(in practice, only the first call); later calls leave the origin unchanged. -/
theorem reset_zeroes_and_latches_once (s : StatsResetState) (clock_now : Int) :
    (mi_stats_reset s clock_now).stats_main = zeroStats ∧
    (∀ h, s.heap_stats = some h → (mi_stats_reset s clock_now).heap_stats = some zeroStats) ∧
    (mi_stats_reset s clock_now).process_start =
      (if s.process_start = 0 then clock_now else s.process_start) := by
  refine ⟨rfl, fun h hh => ?_, rfl⟩
  simp [mi_stats_reset, hh]

/-- Witness for C3 (amended) at a concrete state with a distinct thread
block and an already-latched origin. -/
theorem reset_zeroes_and_latches_once_witness :
    (mi_stats_reset
        { stats_main := zeroStats, heap_stats := some zeroStats, process_start := 5 }
        100).stats_main = zeroStats ∧
      (mi_stats_reset
          { stats_main := zeroStats, heap_stats := some zeroStats, process_start := 5 }
          100).heap_stats = some zeroStats ∧
      (mi_stats_reset
          { stats_main := zeroStats, heap_stats := some zeroStats, process_start := 5 }
          100).process_start = 5 := by
  obtain ⟨h1, h2, h3⟩ := reset_zeroes_and_latches_once
    { stats_main := zeroStats, heap_stats := some zeroStats, process_start := 5 } 100
  exact ⟨h1, h2 zeroStats rfl, by simpa using h3⟩

/-- C5 counterexample: the leak indicator IS rendered for the
monotonically-increasing reserved-memory counter.  `_mi_stats_print` renders
`reserved` through `mi_stat_print(&stats->reserved, "reserved", 1, ...)`
(stats.c:375), and with `allocated > freed` that row ends in
`"  not all freed!"`. -/
theorem reserved_line_shows_leak_indicator :
    strEndsWith
        (mi_stats_print_reserved_line
          { zeroStats with reserved := { allocated := 2, freed := 1, peak := 2, current := 1 } })
        "  not all freed!\n" = true := by
  decide

/-- C5 amended: both renderers emit the leak status for EVERY size counter
rendered with a nonzero unit — including the monotonically-increasing
reserved/committed/reset/touched counters, which the table renderer prints
with `unit = 1` — choosing `"not all freed!"` exactly when
`allocated > freed` and `"ok"` otherwise; only the `unit = 0` rendering omits
the indicator. -/
theorem leak_indicator_for_all_nonzero_units (stat : MiStatCount) (msg : String)
    (unit : Int) (h : unit ≠ 0) :
    (∃ p, mi_stat_print stat msg unit =
      p ++ (if stat.allocated > stat.freed then "  not all freed!\n" else "  ok\n")) ∧
    (∃ q, mi_stat_print_body_xml stat unit =
      q ++ mi_stat_print_allocation_result_xml stat) := by
  constructor
  · rcases lt_trichotomy unit 0 with hneg | rfl | hpos
    · exact ⟨_, by rw [mi_stat_print, if_neg (by omega), if_pos hneg, ← String.append_assoc]⟩
    · exact absurd rfl h
    · exact ⟨_, by rw [mi_stat_print, if_pos hpos, ← String.append_assoc]⟩
  · exact ⟨_, by rw [mi_stat_print_body_xml, if_neg h]⟩

/-- Witness for C5 (amended) at the reserved counter with `unit = 1`. -/
theorem leak_indicator_for_all_nonzero_units_witness :
    (∃ p, mi_stat_print { allocated := 2, freed := 1, peak := 2, current := 1 } "reserved" 1 =
      p ++ (if (2 : Int) > (1 : Int) then "  not all freed!\n" else "  ok\n")) ∧
    (∃ q, mi_stat_print_body_xml { allocated := 2, freed := 1, peak := 2, current := 1 } 1 =
      q ++ mi_stat_print_allocation_result_xml
        { allocated := 2, freed := 1, peak := 2, current := 1 }) :=
  leak_indicator_for_all_nonzero_units
    { allocated := 2, freed := 1, peak := 2, current := 1 } "reserved" 1 (by decide)

theorem tdiv_nat_mul_ten (m k : Nat) :
    ((m : Int) * 10).tdiv ((k : Int) * 10) = ((m : Int)).tdiv (k : Int) := by
  rw [show ((m : Int) * 10) = ((m * 10 : Nat) : Int) by push_cast; ring,
      show ((k : Int) * 10) = ((k * 10 : Nat) : Int) by push_cast; ring,
      ← Int.ofNat_tdiv, ← Int.ofNat_tdiv, Nat.mul_div_mul_right _ _ (by norm_num)]

theorem tdiv_mul_ten (n : Int) (k : Nat) :
    (n * 10).tdiv ((k : Int) * 10) = n.tdiv (k : Int) := by
  rcases Int.le_or_lt 0 n with h | h
  · obtain ⟨m, rfl⟩ := Int.eq_ofNat_of_zero_le h
    exact tdiv_nat_mul_ten m k
  · obtain ⟨m, rfl⟩ : ∃ m : Nat, n = -(m : Int) := ⟨n.natAbs, by omega⟩
    rw [show (-(m : Int) * 10) = -((m : Int) * 10) by ring, Int.neg_tdiv, Int.neg_tdiv,
        tdiv_nat_mul_ten m k]

/-- For the decimal base (`unit = 0`, dividers `10^3`, `10^6`, `10^9`) the
code's tenths formula `n / (divider/10)` agrees with the spec's
`n*10 / divider`, so the two formatters coincide. -/
theorem decimal_buf_eq (n : Int) : mi_printf_amount_buf n 0 = mi_printf_amount_spec_buf n 0 := by
  unfold mi_printf_amount_buf mi_printf_amount_spec_buf
  norm_num
  set pos := if n < 0 then -n else n with hpos
  split
  · rfl
  · have e3 : Int.tdiv n 100 = Int.tdiv (n * 10) 1000 := by
      have := tdiv_mul_ten n 100
      norm_num at this
      omega
    have e6 : Int.tdiv n 100000 = Int.tdiv (n * 10) 1000000 := by
      have := tdiv_mul_ten n 100000
      norm_num at this
      omega
    have e9 : Int.tdiv n 100000000 = Int.tdiv (n * 10) 1000000000 := by
      have := tdiv_mul_ten n 100000000
      norm_num at this
      omega
    rcases Int.le_or_lt 1000000 pos with h6 | h6
    · rw [if_pos h6]
      norm_num
      rcases Int.le_or_lt 1000000000 pos with h9 | h9
      · rw [if_pos h9]
        norm_num [show Int.tdiv 1000000000 10 = 100000000 by decide, e9]
      · have h9' : ¬ ((1000000000 : Int) ≤ pos) := by omega
        rw [if_neg h9']
        norm_num [show Int.tdiv 1000000 10 = 100000 by decide, e6]
    · have h6' : ¬ ((1000000 : Int) ≤ pos) := by omega
      rw [if_neg h6']
      norm_num
      rw [if_neg h6']
      norm_num [show Int.tdiv 1000 10 = 100 by decide, e3]

/-- C6 counterexample: the fractional digit is NOT computed by
`value*10/divisor`.  The code computes `tens = n / (divider/10)`
(stats.c:175); at `n = 2652` in the binary-Ki range the code renders `2.6`
(`2652 / 102 = 26`) while the spec's formula gives `2.5`
(`26520 / 1024 = 25`). -/
theorem frac_digit_formula_differs :
    mi_printf_amount 2652 (-1) none PrintMode.TABLE = "    2.6 Ki " ∧
      mi_printf_amount_spec 2652 (-1) none PrintMode.TABLE = "    2.5 Ki " ∧
      mi_printf_amount 2652 (-1) none PrintMode.TABLE ≠
        mi_printf_amount_spec 2652 (-1) none PrintMode.TABLE := by
  decide

/-- C6 amended: the formatter computes the fractional decimal digit by the
integer division `n / (divider/10)` (no floating point); for the decimal
magnitude base (`unit = 0`, base 1000) this agrees with the spec's
`value*10/divisor` for every value, but for the binary base (1024) the two
formulas can differ. -/
theorem frac_digit_decimal_base_eq (n : Int) (fmt : Option String) (mode : PrintMode) :
    mi_printf_amount n 0 fmt mode = mi_printf_amount_spec n 0 fmt mode := by
  unfold mi_printf_amount mi_printf_amount_spec
  rw [decimal_buf_eq]

/-- C7 counterexample: a raw byte value of exactly `1` under `unit = 1` is
NOT rendered as a plain integer with the byte suffix: the code skips printing
`"1 B"` (stats.c:166, "skip printing 1 B for the unit column") and emits a
blank field. -/
theorem one_byte_value_renders_blank :
    mi_printf_amount 1 1 none PrintMode.TABLE = "           " ∧
      mi_printf_amount 1 1 none PrintMode.TABLE ≠ "      1 B  " := by
  decide

/-- C7 amended: under `unit = 1`, the value `1024` renders with the binary-Ki
suffix and a whole number with zero fraction (`1.0 KiB`); the value `0`
renders with no suffix; the value `1` renders as a blank field (the
deliberately skipped `"1 B"` case); and every value from `2` to `1023`
renders as a plain integer with the byte suffix. -/
theorem unit_boundary_rendering :
    mi_printf_amount 1024 1 none PrintMode.TABLE = "    1.0 KiB" ∧
    mi_printf_amount 0 1 none PrintMode.TABLE = "      0    " ∧
    mi_printf_amount 1 1 none PrintMode.TABLE = rightAlign 11 "" ∧
    (∀ n : Int, 2 ≤ n → n < 1024 →
      mi_printf_amount n 1 none PrintMode.TABLE =
        rightAlign 11 (toString n ++ " " ++ leftAlign 3 "B")) := by
  refine ⟨by decide, by decide, by decide, fun n h2 h1024 => ?_⟩
  simp only [mi_printf_amount, mi_printf_amount_buf, applyFmt]
  norm_num
  split_ifs <;> simp_all <;> omega

/-- Witness for C7 (amended) at the concrete value `5`. -/
theorem unit_boundary_rendering_witness :
    mi_printf_amount 5 1 none PrintMode.TABLE =
      rightAlign 11 (toString (5 : Int) ++ " " ++ leftAlign 3 "B") :=
  unit_boundary_rendering.2.2.2 5 (by norm_num) (by norm_num)

/-- Processing one character preserves the adapter invariant, and the
concatenation of the flushed strings followed by the buffer contents grows by
exactly that character (verbatim preservation). -/
theorem buffered_char_step (count : Nat) (hc : 0 < count) (st : BufferedT × List (List Char))
    (c : Char) (h : BufWf count st) :
    BufWf count (mi_buffered_out_char st c) ∧
      (mi_buffered_out_char st c).2.join ++ (mi_buffered_out_char st c).1.buffered =
        st.2.join ++ st.1.buffered ++ [c] := by
  obtain ⟨b, outs⟩ := st
  obtain ⟨hcnt, hlen, hf⟩ := h
  simp only at hcnt hlen hf
  subst hcnt
  simp only [mi_buffered_out_char, mi_buffered_flush, BufWf]
  by_cases hfull : b.buffered.length ≥ b.count
  · rw [if_pos hfull]
    by_cases hnl : c = '\n'
    · subst hnl
      rw [if_pos rfl]
      refine ⟨⟨rfl, by simp, ?_⟩, by simp⟩
      intro f hmem
      simp only [List.mem_append, List.mem_singleton] at hmem
      rcases hmem with (hmem | rfl) | rfl
      · exact hf f hmem
      · left; omega
      · right; simp
    · rw [if_neg hnl]
      refine ⟨⟨rfl, by simpa using hc, ?_⟩, by simp⟩
      intro f hmem
      simp only [List.mem_append, List.mem_singleton] at hmem
      rcases hmem with hmem | rfl
      · exact hf f hmem
      · left; omega
  · rw [if_neg hfull]
    by_cases hnl : c = '\n'
    · subst hnl
      rw [if_pos rfl]
      refine ⟨⟨rfl, by simp, ?_⟩, by simp⟩
      intro f hmem
      simp only [List.mem_append, List.mem_singleton] at hmem
      rcases hmem with hmem | rfl
      · exact hf f hmem
      · right; simp
    · rw [if_neg hnl]
      refine ⟨⟨rfl, by simp; omega, ?_⟩, by simp⟩
      exact hf

theorem buffered_out_fold (count : Nat) (hc : 0 < count) (msg : List Char) :
    ∀ st, BufWf count st →
      BufWf count (mi_buffered_out msg st) ∧
        (mi_buffered_out msg st).2.join ++ (mi_buffered_out msg st).1.buffered =
          st.2.join ++ st.1.buffered ++ msg := by
  induction msg with
  | nil => intro st h; simpa [mi_buffered_out] using h
  | cons c cs ih =>
    intro st h
    have step := buffered_char_step count hc st c h
    have rest := ih (mi_buffered_out_char st c) step.1
    simp only [mi_buffered_out, List.foldl_cons] at rest ⊢
    refine ⟨rest.1, ?_⟩
    rw [rest.2, step.2]
    simp

theorem buffered_run_fold (count : Nat) (hc : 0 < count) (frags : List (List Char)) :
    ∀ st, BufWf count st →
      BufWf count (frags.foldl (fun st m => mi_buffered_out m st) st) ∧
        (frags.foldl (fun st m => mi_buffered_out m st) st).2.join ++
            (frags.foldl (fun st m => mi_buffered_out m st) st).1.buffered =
          st.2.join ++ st.1.buffered ++ frags.join := by
  induction frags with
  | nil => intro st h; simpa using h
  | cons m ms ih =>
    intro st h
    have step := buffered_out_fold count hc m st h
    have rest := ih (mi_buffered_out m st) step.1
    simp only [List.foldl_cons] at rest ⊢
    refine ⟨rest.1, ?_⟩
    rw [rest.2, step.2]
    simp

/-- C9: for every sequence of fragments appended through the line-buffered
adapter (capacity `count > 0`, starting from a fresh empty buffer), every
string the sink observes either has length exactly `count` (capacity-overflow
flush) or is nonempty and ends in a newline, and the flushed strings followed
by the remaining buffer contents reproduce the appended fragments verbatim
(so each flush emits the buffered characters verbatim and clears the
buffer). -/
theorem buffered_adapter_flushes (count : Nat) (hc : 0 < count) (frags : List (List Char)) :
    (∀ f ∈ (mi_buffered_run count frags).2,
        f.length = count ∨ (f ≠ [] ∧ f.getLast? = some '\n')) ∧
      (mi_buffered_run count frags).2.join ++ (mi_buffered_run count frags).1.buffered =
        frags.join := by
  have h0 : BufWf count ({ buffered := [], count := count }, ([] : List (List Char))) :=
    ⟨rfl, by simp, by simp⟩
  have := buffered_run_fold count hc frags _ h0
  exact ⟨this.1.2.2, by simpa [mi_buffered_run] using this.2⟩

/-- Witness for C9 at capacity `3` and the fragments `"ab"`, `"cd\ne"`
(exercising both an overflow flush and a newline flush). -/
theorem buffered_adapter_flushes_witness :
    (∀ f ∈ (mi_buffered_run 3 [['a', 'b'], ['c', 'd', '\n', 'e']]).2,
        f.length = 3 ∨ (f ≠ [] ∧ f.getLast? = some '\n')) ∧
      (mi_buffered_run 3 [['a', 'b'], ['c', 'd', '\n', 'e']]).2.join ++
          (mi_buffered_run 3 [['a', 'b'], ['c', 'd', '\n', 'e']]).1.buffered =
        [['a', 'b'], ['c', 'd', '\n', 'e']].join :=
  buffered_adapter_flushes 3 (by decide) [['a', 'b'], ['c', 'd', '\n', 'e']]

/-- C10: `mi_process_info` writes each output only when the corresponding
pointer is non-null (null pointers are skipped), and clamps each of the
elapsed, user and system times into `[0, PTRDIFF_MAX]`: a negative sampled
time is reported as `0` and a time at or above `PTRDIFF_MAX` as
`PTRDIFF_MAX`.  The function is total (never fails). -/
theorem process_info_null_skip_and_clamp (s : ProcessSample)
    (pe pu ps prc prp pcc ppc ppf : Bool) :
    ((mi_process_info s pe pu ps prc prp pcc ppc ppf).elapsed_msecs.isSome = pe ∧
     (mi_process_info s pe pu ps prc prp pcc ppc ppf).user_msecs.isSome = pu ∧
     (mi_process_info s pe pu ps prc prp pcc ppc ppf).system_msecs.isSome = ps ∧
     (mi_process_info s pe pu ps prc prp pcc ppc ppf).current_rss.isSome = prc ∧
     (mi_process_info s pe pu ps prc prp pcc ppc ppf).peak_rss.isSome = prp ∧
     (mi_process_info s pe pu ps prc prp pcc ppc ppf).current_commit.isSome = pcc ∧
     (mi_process_info s pe pu ps prc prp pcc ppc ppf).peak_commit.isSome = ppc ∧
     (mi_process_info s pe pu ps prc prp pcc ppc ppf).page_faults.isSome = ppf) ∧
    (∀ v, (mi_process_info s pe pu ps prc prp pcc ppc ppf).elapsed_msecs = some v →
      (v : Int) ≤ ptrdiffMax ∧ (s.elapsed < 0 → v = 0) ∧
        (ptrdiffMax ≤ s.elapsed → (v : Int) = ptrdiffMax)) ∧
    (∀ v, (mi_process_info s pe pu ps prc prp pcc ppc ppf).user_msecs = some v →
      (v : Int) ≤ ptrdiffMax ∧ (s.utime < 0 → v = 0) ∧
        (ptrdiffMax ≤ s.utime → (v : Int) = ptrdiffMax)) ∧
    (∀ v, (mi_process_info s pe pu ps prc prp pcc ppc ppf).system_msecs = some v →
      (v : Int) ≤ ptrdiffMax ∧ (s.stime < 0 → v = 0) ∧
        (ptrdiffMax ≤ s.stime → (v : Int) = ptrdiffMax)) := by
  refine ⟨⟨?_, ?_, ?_, ?_, ?_, ?_, ?_, ?_⟩, ?_, ?_, ?_⟩
  · cases pe <;> simp [mi_process_info]
  · cases pu <;> simp [mi_process_info]
  · cases ps <;> simp [mi_process_info]
  · cases prc <;> simp [mi_process_info]
  · cases prp <;> simp [mi_process_info]
  · cases pcc <;> simp [mi_process_info]
  · cases ppc <;> simp [mi_process_info]
  · cases ppf <;> simp [mi_process_info]
  · intro v hv
    simp only [ptrdiffMax] at hv ⊢
    cases pe <;> simp [mi_process_info, ptrdiffMax] at hv
    subst hv
    split_ifs <;> refine ⟨by omega, fun h => by omega, fun h => by omega⟩
  · intro v hv
    simp only [ptrdiffMax] at hv ⊢
    cases pu <;> simp [mi_process_info, ptrdiffMax] at hv
    subst hv
    split_ifs <;> refine ⟨by omega, fun h => by omega, fun h => by omega⟩
  · intro v hv
    simp only [ptrdiffMax] at hv ⊢
    cases ps <;> simp [mi_process_info, ptrdiffMax] at hv
    subst hv
    split_ifs <;> refine ⟨by omega, fun h => by omega, fun h => by omega⟩

/-- Witness for C10 at a sampled elapsed time of `-7` (clamped to `0`) with
all output pointers non-null. -/
theorem process_info_null_skip_and_clamp_witness :
    ((0 : Nat) : Int) ≤ ptrdiffMax ∧ ((-7 : Int) < 0 → (0 : Nat) = 0) ∧
      (ptrdiffMax ≤ (-7 : Int) → ((0 : Nat) : Int) = ptrdiffMax) :=
  (process_info_null_skip_and_clamp
      { elapsed := -7, utime := 2 ^ 63, stime := 42, current_rss := 1, peak_rss := 2,
        current_commit := 3, peak_commit := 4, page_faults := 5 }
      true true true true true true true true).2.1 0 (by decide)
